import Mathlib

/-!
Verification of the playback-and-cache coordination engine of
`@umituz/react-native-sound`.

The development shallowly embeds the TypeScript sources:
* `src/types.ts` — `SoundState`, clamping helpers, source validity;
* `src/store.ts` — the two `useSoundStore` implementations (they differ in
  `reset`: the `createStore` variant restores the whole initial state, the
  zustand variant omits `volume` and `rate`);
* `src/AudioManager.ts` — the complete `AudioManager` with preload cache,
  modelled as a state machine over `MState`; native `Audio.Sound` handles are
  numbered by creation order and tracked in a status map;
* `SoundSourceResolver.resolve` and `SoundCacheService.downloadAndCache` —
  modelled as pure functions over a filename list standing for the persistent
  file cache.

Asynchronous native calls that may fail (`createAsync`, and the
volume/rate/play steps issued after a handle is assigned) are parametrised by
an environment record of success flags, so that the `catch` blocks of the
source become ordinary branches of the model.
-/

set_option linter.unusedVariables false

namespace SoundRepo

/-- Status of a native `Audio.Sound` handle: `stopped` means loaded but idle
(this is the state `createAsync` with `shouldPlay:false` produces and the
state `stopAsync` returns to); `released` covers never-created and unloaded
handles (`isLoaded` is false exactly there). -/
inductive HStatus where
  | playing
  | paused
  | stopped
  | released
deriving DecidableEq, Repr

/-- `SoundSource` from `types.ts`: a bundled asset number, a uri record, or
`null`. -/
inductive MSource where
  | asset (n : Nat)
  | uri (u : String)
  | nullSrc
deriving DecidableEq, Repr

/-- `SoundState` from `types.ts`, the record held by the UI store. -/
structure SoundState where
  isPlaying : Bool
  isBuffering : Bool
  positionMillis : Nat
  durationMillis : Nat
  volume : Rat
  rate : Rat
  error : Option String
  currentSource : Option MSource
  currentId : Option String
deriving DecidableEq, Repr

/-- `initialSoundState` from `store.ts`. -/
def initialSoundState : SoundState :=
  { isPlaying := false
    isBuffering := false
    positionMillis := 0
    durationMillis := 0
    volume := 1
    rate := 1
    error := none
    currentSource := none
    currentId := none }

/-- `clampVolume` from `types.ts`. -/
def clampVolume (v : Rat) : Rat := max 0 (min 1 v)

/-- `clampRate` from `types.ts`. -/
def clampRate (r : Rat) : Rat := max (1/2) (min 2 r)

/-- `isSoundSourceValid` from `types.ts`. -/
def isSoundSourceValid (s : MSource) : Bool := s ≠ .nullSrc

/-- The error message thrown by `play` and `preload` on a null source. -/
def invalidSourceMsg : String := "Invalid sound source: source is null or undefined"

/-- An `AVPlaybackStatus` as consumed by `onPlaybackStatusUpdate`;
`durationMillis` may be `undefined` in the success case. -/
structure AVStatus where
  isLoaded : Bool
  error : Option String
  isPlaying : Bool
  isBuffering : Bool
  positionMillis : Nat
  durationMillis : Option Nat
  didJustFinish : Bool
  isLooping : Bool
deriving DecidableEq, Repr

/-- JS `x || 0` on an optional number (`undefined` and `0` both give `0`). -/
def jsOr0 (o : Option Nat) : Nat :=
  match o with
  | some n => n
  | none => 0

/-- `AudioManager.onPlaybackStatusUpdate`, as a pure transformer of the store
record. -/
def onPlaybackStatusUpdate (status : AVStatus) (store : SoundState) : SoundState :=
  if !status.isLoaded then
    match status.error with
    | some e => { store with error := some e, isPlaying := false }
    | none => store
  else
    let s1 : SoundState :=
      { store with
        isPlaying := status.isPlaying
        isBuffering := status.isBuffering
        positionMillis := status.positionMillis
        durationMillis := jsOr0 status.durationMillis }
    if status.didJustFinish && !status.isLooping then
      { s1 with
        isPlaying := false
        positionMillis := jsOr0 status.durationMillis
        durationMillis := jsOr0 status.durationMillis }
    else s1

/-- The repository ships two `useSoundStore` implementations side by side;
they differ only in `reset`. -/
inductive StoreVariant where
  | createStore
  | zustand
deriving DecidableEq, Repr

/-- `reset` of the two store variants: the `createStore` variant does
`set(initialSoundState)`; the zustand variant's `reset` sets every field
except `volume` and `rate`. -/
def resetStore (v : StoreVariant) (s : SoundState) : SoundState :=
  match v with
  | .createStore => initialSoundState
  | .zustand => { initialSoundState with volume := s.volume, rate := s.rate }

/-- A preload-cache entry (`CachedSound` in `AudioManager.ts`): the owned
native handle, the source, and the insertion timestamp. -/
structure CachedSound where
  h : Nat
  src : MSource
  loadedAt : Nat
deriving DecidableEq, Repr

/-- The modelled world: the `AudioManager` fields (`sound`, `currentId`,
`cache`), the UI store record, the status of every native handle keyed by
creation index, the next fresh handle index, and the clock (`Date.now()`). -/
structure MState where
  sound : Option Nat
  currentId : Option String
  cache : List (String × CachedSound)
  store : SoundState
  handles : Nat → HStatus
  nextH : Nat
  now : Nat

/-- Point update of the handle-status map. -/
def upd (f : Nat → HStatus) (k : Nat) (v : HStatus) : Nat → HStatus :=
  fun n => if n = k then v else f n

/-- Release every handle in the given list (a batch of best-effort
`unloadAsync` calls whose failures are swallowed). -/
def releaseAll (hs : List Nat) (f : Nat → HStatus) : Nat → HStatus :=
  fun n => if n ∈ hs then .released else f n

/-- `maxCacheSize` field of `AudioManager`. -/
def maxCacheSize : Nat := 3

/-- `cacheExpireMs` field of `AudioManager` (5 minutes). -/
def cacheExpireMs : Nat := 5 * 60 * 1000

/-- `Map.get` / `Map.has` on the insertion-ordered preload cache. -/
def lookupCache : List (String × CachedSound) → String → Option CachedSound
  | [], _ => none
  | p :: rest, id => if p.1 = id then some p.2 else lookupCache rest id

/-- The expiry test `now - cached.loadedAt > this.cacheExpireMs`. -/
def isExpired (now : Nat) (e : CachedSound) : Bool := now - e.loadedAt > cacheExpireMs

/-- `AudioManager.cleanExpiredCache`: drop every expired entry, releasing its
handle. -/
def cleanExpiredCache (s : MState) : MState :=
  { s with
    cache := s.cache.filter (fun p => !isExpired s.now p.2)
    handles := releaseAll
      ((s.cache.filter (fun p => isExpired s.now p.2)).map (fun p => p.2.h))
      s.handles }

/-- `AudioManager.enforceCacheLimit`: when the cache is at the bound, release
and drop the oldest entry.  The source guards the eviction with JS truthiness
of the first key (`if (firstKey)`), so an empty-string oldest key skips the
eviction. -/
def enforceCacheLimit (s : MState) : MState :=
  if maxCacheSize ≤ s.cache.length then
    match s.cache with
    | [] => s
    | p :: rest =>
      if p.1 = "" then s
      else { s with cache := rest, handles := upd s.handles p.2.h .released }
  else s

/-- Success flags for the fallible async steps of one `play`/`preload` call:
`createOk` is `Audio.Sound.createAsync`, `startOk` covers the
volume/rate/play calls issued on an already-assigned handle, and `msg` is the
message the rejected promise carries. -/
structure StepEnv where
  createOk : Bool
  startOk : Bool
  msg : String
deriving DecidableEq, Repr

/-- `AudioManager.preload`.  Returns the new state and whether the call threw.
The clean/enforce steps run before handle creation, so a failing creation
still leaves their effects behind. -/
def preload (id : String) (src : MSource) (env : StepEnv) (s : MState) :
    MState × Bool :=
  if !isSoundSourceValid src then (s, true)
  else if (lookupCache s.cache id).isSome then (s, false)
  else
    let s1 := enforceCacheLimit (cleanExpiredCache s)
    if env.createOk then
      ({ s1 with
          handles := upd s1.handles s1.nextH .stopped
          nextH := s1.nextH + 1
          cache := s1.cache ++ [(id, ⟨s1.nextH, src, s1.now⟩)] }, false)
    else (s1, true)

/-- `AudioManager.unload`: release the active handle (its own failure is
swallowed by the inner try/catch), clear `currentId`, reset the store. -/
def unload (v : StoreVariant) (s : MState) : MState :=
  let s1 :=
    match s.sound with
    | some h => { s with handles := upd s.handles h .released, sound := none }
    | none => s
  { s1 with currentId := none, store := resetStore v s1.store }

/-- Observable events of one `play` call, in source order. -/
inductive Ev where
  | unloadEv
  | promoteEv
  | createDoneEv
  | setCurrentEv
  | clearErrorEv
  | startEv
  | resumeEv
  | errorEv
deriving DecidableEq, Repr

/-- Result of one `play` call: final state, whether it threw, and the event
log in execution order. -/
structure PlayOut where
  state : MState
  threw : Bool
  events : List Ev

/-- The guard `this.currentId === id && this.sound` at the top of `play`:
the active handle, when the requested id is the loaded one. -/
def sameBranch (s : MState) (id : String) : Option Nat :=
  match s.sound with
  | some h => if s.currentId = some id then some h else none
  | none => none

/-- The `try` block of `play` (new-session path): unload the previous session,
then either promote the matching cache entry or create a fresh handle with
`shouldPlay:true`.  `currentId`, `store.setCurrent` and `store.setError(null)`
run after the handle is assigned.  The `catch` records the message and nulls
`this.currentId` only — `this.sound` is left as assigned. -/
def playFresh (v : StoreVariant) (id : String) (src : MSource) (env : StepEnv)
    (s : MState) : PlayOut :=
  let s0 := unload v s
  match lookupCache s0.cache id with
  | some e =>
    let s1 : MState :=
      { s0 with
        sound := some e.h
        cache := s0.cache.filter (fun p => !decide (p.1 = id))
        currentId := some id
        store := { s0.store with
                   currentId := some id
                   currentSource := some src
                   error := none } }
    if env.startOk then
      { state := { s1 with handles := upd s1.handles e.h .playing }
        threw := false
        events := [.unloadEv, .promoteEv, .setCurrentEv, .clearErrorEv, .startEv] }
    else
      { state := { s1 with
                   currentId := none
                   store := { s1.store with error := some env.msg } }
        threw := true
        events := [.unloadEv, .promoteEv, .setCurrentEv, .clearErrorEv, .errorEv] }
  | none =>
    if env.createOk then
      { state := { s0 with
          handles := upd s0.handles s0.nextH .playing
          nextH := s0.nextH + 1
          sound := some s0.nextH
          currentId := some id
          store := { s0.store with
                     currentId := some id
                     currentSource := some src
                     error := none } }
        threw := false
        events := [.unloadEv, .createDoneEv, .setCurrentEv, .clearErrorEv, .startEv] }
    else
      { state := { s0 with store := { s0.store with error := some env.msg } }
        threw := true
        events := [.unloadEv, .errorEv] }

/-- `AudioManager.play`. -/
def play (v : StoreVariant) (id : String) (src : MSource) (env : StepEnv)
    (s : MState) : PlayOut :=
  if !isSoundSourceValid src then
    { state := { s with store := { s.store with error := some invalidSourceMsg } }
      threw := true
      events := [.errorEv] }
  else
    match sameBranch s id with
    | some h =>
      if s.handles h ≠ .released then
        if s.handles h = .playing then
          { state := s, threw := false, events := [] }
        else
          { state := { s with handles := upd s.handles h .playing }
            threw := false
            events := [.resumeEv] }
      else playFresh v id src env s
    | none => playFresh v id src env s

/-- `AudioManager.pause`. -/
def pause (s : MState) : MState :=
  match s.sound with
  | some h => { s with handles := upd s.handles h .paused }
  | none => s

/-- `AudioManager.resume`. -/
def resume (s : MState) : MState :=
  match s.sound with
  | some h => { s with handles := upd s.handles h .playing }
  | none => s

/-- `AudioManager.stop`: stop the handle, then synchronously force
playing=false and progress to 0/0. -/
def stop (s : MState) : MState :=
  match s.sound with
  | some h =>
    { s with
      handles := upd s.handles h .stopped
      store := { s.store with
                 isPlaying := false
                 positionMillis := 0
                 durationMillis := 0 } }
  | none => s

/-- `AudioManager.seek`: clamps and forwards to the handle; no modelled field
changes. -/
def seek (pos : Int) (s : MState) : MState := s

/-- `AudioManager.setVolume`: only acts when a handle is loaded; writes the
clamped value into the store. -/
def setVolume (vol : Rat) (s : MState) : MState :=
  match s.sound with
  | some _ => { s with store := { s.store with volume := clampVolume vol } }
  | none => s

/-- `AudioManager.setRate`: clamps and forwards; failures are swallowed and
nothing is written to the store. -/
def setRate (r : Rat) (s : MState) : MState := s

/-- `AudioManager.clearCache`: release every cached handle, empty the map. -/
def clearCache (s : MState) : MState :=
  { s with
    handles := releaseAll (s.cache.map (fun p => p.2.h)) s.handles
    cache := [] }

/-- `AudioManager.isCached`. -/
def isCached (s : MState) (id : String) : Bool := (lookupCache s.cache id).isSome

/-- `AudioManager.getCurrentId`. -/
def getCurrentId (s : MState) : Option String := s.currentId

/-- One Coordinator operation (including clock advance and a native status
callback delivery). -/
inductive Op where
  | play (id : String) (src : MSource) (env : StepEnv)
  | preload (id : String) (src : MSource) (env : StepEnv)
  | pause
  | resume
  | stop
  | seek (pos : Int)
  | setVolume (v : Rat)
  | setRate (r : Rat)
  | unload
  | clearCache
  | tick (ms : Nat)
  | status (st : AVStatus)

/-- Execute one operation (discarding the thrown/return value). -/
def exec (v : StoreVariant) (op : Op) (s : MState) : MState :=
  match op with
  | .play id src env => (play v id src env s).state
  | .preload id src env => (preload id src env s).1
  | .pause => pause s
  | .resume => resume s
  | .stop => stop s
  | .seek p => seek p s
  | .setVolume vol => setVolume vol s
  | .setRate r => setRate r s
  | .unload => unload v s
  | .clearCache => clearCache s
  | .tick ms => { s with now := s.now + ms }
  | .status st => { s with store := onPlaybackStatusUpdate st s.store }

/-- The state of a freshly constructed `AudioManager` with a fresh store. -/
def initState : MState :=
  { sound := none
    currentId := none
    cache := []
    store := initialSoundState
    handles := fun _ => .released
    nextH := 0
    now := 0 }

/-- Run a sequence of operations from the initial state. -/
def runOps (v : StoreVariant) (ops : List Op) : MState :=
  ops.foldl (fun s op => exec v op s) initState

/-- A handle counts as active when it is playing or paused. -/
def isActive (st : HStatus) : Prop := st = .playing ∨ st = .paused

instance (st : HStatus) : Decidable (isActive st) := by
  unfold isActive
  infer_instance

/-- Number of handle creations recorded in an event log. -/
def countCreate (l : List Ev) : Nat := (l.filter (fun e => e = .createDoneEv)).length

/-- Whether the first occurrence of `a` is strictly before the first
occurrence of `b` in the log (false when either is absent). -/
def evBefore (l : List Ev) (a b : Ev) : Bool :=
  match l.findIdx? (fun e => e = a), l.findIdx? (fun e => e = b) with
  | some i, some j => i < j
  | _, _ => false

/-- The `Sound` entity fields consumed by `SoundSourceResolver.resolve`. -/
structure RSound where
  id : String
  name : String
  filename : Option String
  storageUrl : Option String
  localAsset : Option Nat
deriving DecidableEq, Repr

/-- An `AudioSource`: bundled asset number or uri record. -/
inductive RSource where
  | asset (n : Nat)
  | uri (u : String)
deriving DecidableEq, Repr

/-- JS truthiness of an optional string (absent and empty are falsy). -/
def strTruthy (o : Option String) : Bool :=
  match o with
  | some s => s ≠ ""
  | none => false

/-- The `CACHE_DIR` constant of `SoundCacheService`. -/
def cacheDirPath : String := "file:cache/sounds/"

/-- `soundCacheService.downloadAndCache`: on success the filename joins the
persistent cache, on failure the promise rejects with a download error. -/
def downloadAndCache (ok : Bool) (filename : String) (cached : List String) :
    Except String (List String) :=
  if ok then .ok (cached ++ [filename]) else .error "Download failed"

/-- The `.catch` attached to the background download in `resolve`: a rejection
is absorbed, leaving the persistent cache as it was and reporting nothing. -/
def catchBackground (r : Except String (List String)) (cached : List String) :
    List String × Option String :=
  match r with
  | .ok c => (c, none)
  | .error _ => (cached, none)

/-- `storageService.getDownloadUrl`, modelled as a finite table; a missing key
is a rejected promise (the `catch` in `resolve` turns it into `null`). -/
def lookupUrl : List (String × String) → String → Option String
  | [], _ => none
  | p :: rest, k => if p.1 = k then some p.2 else lookupUrl rest k

/-- Everything one `resolve` call produces: the returned value (source and
isStreaming flag, or null), the persistent cache afterwards, which
collaborators were consulted, whether a background download was started, and
any error the call pushed towards the UI state (it never pushes one). -/
structure ResolveOut where
  result : Option (RSource × Bool)
  cacheAfter : List String
  storageConsulted : Bool
  cacheConsulted : Bool
  downloadStarted : Bool
  errorToUI : Option String
deriving DecidableEq, Repr

/-- `SoundSourceResolver.resolve`: `storage` is the optional storage
collaborator (`getDownloadUrl` table), `cached` the filenames present in the
persistent cache, `downloadOk` whether the background download succeeds. -/
def resolve (storage : Option (List (String × String))) (cached : List String)
    (downloadOk : Bool) (snd : RSound) : ResolveOut :=
  match snd.localAsset with
  | some a =>
    { result := some (.asset a, false)
      cacheAfter := cached
      storageConsulted := false
      cacheConsulted := false
      downloadStarted := false
      errorToUI := none }
  | none =>
    if strTruthy snd.storageUrl && strTruthy snd.filename then
      let f := snd.filename.getD ""
      if f ∈ cached then
        { result := some (.uri (cacheDirPath ++ f), false)
          cacheAfter := cached
          storageConsulted := false
          cacheConsulted := true
          downloadStarted := false
          errorToUI := none }
      else
        match storage with
        | some table =>
          match lookupUrl table (snd.storageUrl.getD "") with
          | some url =>
            let bg := catchBackground (downloadAndCache downloadOk f cached) cached
            { result := some (.uri url, true)
              cacheAfter := bg.1
              storageConsulted := true
              cacheConsulted := true
              downloadStarted := true
              errorToUI := bg.2 }
          | none =>
            { result := none
              cacheAfter := cached
              storageConsulted := true
              cacheConsulted := true
              downloadStarted := false
              errorToUI := none }
        | none =>
          { result := some (.uri (snd.storageUrl.getD ""), true)
            cacheAfter := cached
            storageConsulted := false
            cacheConsulted := true
            downloadStarted := false
            errorToUI := none }
    else
      if strTruthy snd.storageUrl && (snd.storageUrl.getD "").startsWith "http" then
        { result := some (.uri (snd.storageUrl.getD ""), true)
          cacheAfter := cached
          storageConsulted := false
          cacheConsulted := false
          downloadStarted := false
          errorToUI := none }
      else
        { result := none
          cacheAfter := cached
          storageConsulted := false
          cacheConsulted := false
          downloadStarted := false
          errorToUI := none }

/-- Coercion of a resolved source into the Coordinator's source type. -/
def toMSource : RSource → MSource
  | .asset n => .asset n
  | .uri u => .uri u

/-- A play request that goes through the Source Resolver first (the hook /
store path): resolve the Sound, then hand the resolved source to the
Coordinator's `play`; a null resolution is a thrown resolution error. -/
def resolveAndPlay (v : StoreVariant) (storage : Option (List (String × String)))
    (cached : List String) (downloadOk : Bool) (id : String) (env : StepEnv)
    (snd : RSound) (s : MState) : PlayOut :=
  match (resolve storage cached downloadOk snd).result with
  | some (rsrc, _) => play v id (toMSource rsrc) env s
  | none => { state := s, threw := true, events := [.errorEv] }

/-- Default environment where every native step succeeds. -/
def preOkEnv : StepEnv := ⟨true, true, ""⟩

/-- Environment where every native step succeeds, with a marker message. -/
def demoEnv : StepEnv := ⟨true, true, "m"⟩

/-- Environment where handle creation succeeds but the post-assignment
volume/rate/play step rejects. -/
def failStartEnv : StepEnv := ⟨true, false, "boom"⟩

/-- First of four consecutive preloads (states for the cache-bound scenario). -/
def preState1 (a : String) (src : MSource) : MState × Bool :=
  preload a src preOkEnv initState

/-- Second of four consecutive preloads. -/
def preState2 (a b : String) (src : MSource) : MState × Bool :=
  preload b src preOkEnv (preState1 a src).1

/-- Third of four consecutive preloads. -/
def preState3 (a b c : String) (src : MSource) : MState × Bool :=
  preload c src preOkEnv (preState2 a b src).1

/-- Fourth of four consecutive preloads. -/
def preState4 (a b c d : String) (src : MSource) : MState × Bool :=
  preload d src preOkEnv (preState3 a b c src).1

/-- A state with one loaded, playing session handle for sound "a". -/
def demoPlaying : MState :=
  { initState with
    sound := some 0
    currentId := some "a"
    handles := upd initState.handles 0 .playing
    nextH := 1 }

/-- Preload "a" at time 0, then let 6 minutes pass. -/
def expiredTrace : List Op := [.preload "a" (.asset 1) preOkEnv, .tick 360000]

/-- Play "a", set the volume to 0, then unload (under the zustand store). -/
def volumeThenUnload : MState :=
  unload .zustand (setVolume 0 (play .zustand "a" (.asset 1) demoEnv initState).state)

/-- Play "a", then preload "b": a trace with one playing and one cached handle. -/
def demoOps : List Op := [.play "a" (.asset 1) demoEnv, .preload "b" (.asset 2) demoEnv]

/-- A loaded status reporting a natural finish without looping. -/
def finStatus : AVStatus := ⟨true, none, true, false, 5, some 100, true, false⟩

/-- A loaded status reporting didJustFinish while looping. -/
def loopStatus : AVStatus := ⟨true, none, true, false, 5, some 100, true, true⟩

/-- State after one successful preload from the initial state. -/
def bst1 (id1 : String) (src : MSource) : MState :=
  { initState with
    handles := upd initState.handles 0 .stopped
    nextH := 1
    cache := [(id1, ⟨0, src, 0⟩)] }

/-- State after two successful preloads from the initial state. -/
def bst2 (id1 id2 : String) (src : MSource) : MState :=
  { initState with
    handles := upd (upd initState.handles 0 .stopped) 1 .stopped
    nextH := 2
    cache := [(id1, ⟨0, src, 0⟩), (id2, ⟨1, src, 0⟩)] }

/-- State after three successful preloads from the initial state. -/
def bst3 (id1 id2 id3 : String) (src : MSource) : MState :=
  { initState with
    handles := upd (upd (upd initState.handles 0 .stopped) 1 .stopped) 2 .stopped
    nextH := 3
    cache := [(id1, ⟨0, src, 0⟩), (id2, ⟨1, src, 0⟩), (id3, ⟨2, src, 0⟩)] }

/-- State after four successful preloads (oldest evicted) from the initial
state. -/
def bst4 (id1 id2 id3 id4 : String) (src : MSource) : MState :=
  { initState with
    handles := upd (upd (upd (upd (upd initState.handles 0 .stopped) 1 .stopped)
      2 .stopped) 0 .released) 3 .stopped
    nextH := 4
    cache := [(id2, ⟨1, src, 0⟩), (id3, ⟨2, src, 0⟩), (id4, ⟨3, src, 0⟩)] }

/-- A Sound with both a local asset and remote fields set. -/
def localSound : RSound := ⟨"l", "Local", some "f.mp3", some "sounds/f.mp3", some 7⟩

/-- A remote Sound whose filename is already in the persistent cache. -/
def cachedSound : RSound := ⟨"c", "Cached", some "f.mp3", some "sounds/f.mp3", none⟩

/-- The coordination invariant maintained by every Coordinator operation:
only the session handle may be playing or paused, cache-held handles are
loaded but idle, every owned handle index is below the creation counter,
cache entries own pairwise distinct handles, and the session handle is not
simultaneously owned by the cache. -/
structure Inv (s : MState) : Prop where
  active_sound : ∀ h : Nat, isActive (s.handles h) → s.sound = some h
  cache_stopped : ∀ p ∈ s.cache, s.handles p.2.h = .stopped
  cache_lt : ∀ p ∈ s.cache, p.2.h < s.nextH
  sound_lt : ∀ h : Nat, s.sound = some h → h < s.nextH
  cache_pw : s.cache.Pairwise (fun p q => p.2.h ≠ q.2.h)
  sound_not_cached : ∀ h : Nat, s.sound = some h → ∀ p ∈ s.cache, p.2.h ≠ h

/-! ### Helper lemmas -/

theorem upd_self (f : Nat → HStatus) (k : Nat) (v : HStatus) : upd f k v k = v := by
  simp [upd]

theorem upd_of_ne (f : Nat → HStatus) (k : Nat) (v : HStatus) {n : Nat}
    (h : n ≠ k) : upd f k v n = f n := by
  simp [upd, h]

theorem releaseAll_of_mem {hs : List Nat} (f : Nat → HStatus) {n : Nat}
    (h : n ∈ hs) : releaseAll hs f n = .released := by
  simp [releaseAll, h]

theorem releaseAll_of_not_mem {hs : List Nat} (f : Nat → HStatus) {n : Nat}
    (h : n ∉ hs) : releaseAll hs f n = f n := by
  simp [releaseAll, h]

theorem not_isActive_released : ¬ isActive .released := by
  simp [isActive]

theorem not_isActive_stopped : ¬ isActive .stopped := by
  simp [isActive]

theorem lookupCache_eq_none {c : List (String × CachedSound)} {id : String} :
    lookupCache c id = none ↔ ∀ p ∈ c, p.1 ≠ id := by
  induction c with
  | nil => simp [lookupCache]
  | cons p rest ih =>
    by_cases hp : p.1 = id
    · simp [lookupCache, hp]
    · simp [lookupCache, hp, ih]

theorem lookupCache_some_mem {c : List (String × CachedSound)} {id : String}
    {e : CachedSound} (h : lookupCache c id = some e) : (id, e) ∈ c := by
  induction c with
  | nil => simp [lookupCache] at h
  | cons p rest ih =>
    rw [lookupCache] at h
    by_cases hp : p.1 = id
    · rw [if_pos hp] at h
      injection h with h2
      have hpe : (id, e) = p := by rw [← hp, ← h2]
      rw [hpe]
      exact List.mem_cons_self _ _
    · rw [if_neg hp] at h
      exact List.mem_cons_of_mem _ (ih h)

theorem pairwise_ne_handles {c : List (String × CachedSound)}
    (hp : c.Pairwise (fun p q => p.2.h ≠ q.2.h)) :
    ∀ p ∈ c, ∀ q ∈ c, p ≠ q → p.2.h ≠ q.2.h := by
  induction hp with
  | nil =>
    intro p hpm
    cases hpm
  | @cons a l hrel _ ih =>
    intro p hpm q hqm hne
    rcases List.mem_cons.mp hpm with hpe | hpm'
    · rcases List.mem_cons.mp hqm with hqe | hqm'
      · subst hpe; subst hqe; exact absurd rfl hne
      · subst hpe; exact hrel q hqm'
    · rcases List.mem_cons.mp hqm with hqe | hqm'
      · subst hqe; exact fun hh => hrel p hpm' hh.symm
      · exact ih p hpm' q hqm' hne

theorem sameBranch_some {s : MState} {id : String} {h : Nat}
    (hsb : sameBranch s id = some h) : s.sound = some h := by
  unfold sameBranch at hsb
  cases h0 : s.sound with
  | none => rw [h0] at hsb; cases hsb
  | some h' =>
    rw [h0] at hsb
    by_cases hc : s.currentId = some id
    · simp [hc] at hsb; rw [hsb]
    · simp [hc] at hsb

/-! ### Branch equations for the operations -/

theorem unload_eq_some {v : StoreVariant} {s : MState} {h : Nat}
    (h0 : s.sound = some h) :
    unload v s =
      { s with
        sound := none
        currentId := none
        handles := upd s.handles h .released
        store := resetStore v s.store } := by
  simp [unload, h0]

theorem unload_eq_none {v : StoreVariant} {s : MState} (h0 : s.sound = none) :
    unload v s = { s with currentId := none, store := resetStore v s.store } := by
  simp [unload, h0]

theorem playFresh_promote_ok {v : StoreVariant} {id : String} {src : MSource}
    {env : StepEnv} {s : MState} {e : CachedSound}
    (heq : lookupCache (unload v s).cache id = some e) (hok : env.startOk = true) :
    playFresh v id src env s =
      { state :=
          { sound := some e.h
            currentId := some id
            cache := (unload v s).cache.filter (fun p => !decide (p.1 = id))
            store := { (unload v s).store with
                       currentId := some id
                       currentSource := some src
                       error := none }
            handles := upd (unload v s).handles e.h .playing
            nextH := (unload v s).nextH
            now := (unload v s).now }
        threw := false
        events := [.unloadEv, .promoteEv, .setCurrentEv, .clearErrorEv, .startEv] } := by
  simp [playFresh, heq, hok]

theorem playFresh_promote_fail {v : StoreVariant} {id : String} {src : MSource}
    {env : StepEnv} {s : MState} {e : CachedSound}
    (heq : lookupCache (unload v s).cache id = some e) (hko : env.startOk = false) :
    playFresh v id src env s =
      { state :=
          { sound := some e.h
            currentId := none
            cache := (unload v s).cache.filter (fun p => !decide (p.1 = id))
            store := { (unload v s).store with
                       currentId := some id
                       currentSource := some src
                       error := some env.msg }
            handles := (unload v s).handles
            nextH := (unload v s).nextH
            now := (unload v s).now }
        threw := true
        events := [.unloadEv, .promoteEv, .setCurrentEv, .clearErrorEv, .errorEv] } := by
  simp [playFresh, heq, hko]

theorem playFresh_create_ok {v : StoreVariant} {id : String} {src : MSource}
    {env : StepEnv} {s : MState}
    (heq : lookupCache (unload v s).cache id = none) (hok : env.createOk = true) :
    playFresh v id src env s =
      { state :=
          { sound := some (unload v s).nextH
            currentId := some id
            cache := (unload v s).cache
            store := { (unload v s).store with
                       currentId := some id
                       currentSource := some src
                       error := none }
            handles := upd (unload v s).handles (unload v s).nextH .playing
            nextH := (unload v s).nextH + 1
            now := (unload v s).now }
        threw := false
        events := [.unloadEv, .createDoneEv, .setCurrentEv, .clearErrorEv, .startEv] } := by
  simp [playFresh, heq, hok]

theorem playFresh_create_fail {v : StoreVariant} {id : String} {src : MSource}
    {env : StepEnv} {s : MState}
    (heq : lookupCache (unload v s).cache id = none) (hko : env.createOk = false) :
    playFresh v id src env s =
      { state :=
          { (unload v s) with
            store := { (unload v s).store with error := some env.msg } }
        threw := true
        events := [.unloadEv, .errorEv] } := by
  simp [playFresh, heq, hko]

theorem play_invalid {v : StoreVariant} {id : String} {src : MSource}
    {env : StepEnv} {s : MState} (hv : isSoundSourceValid src = false) :
    play v id src env s =
      { state := { s with store := { s.store with error := some invalidSourceMsg } }
        threw := true
        events := [.errorEv] } := by
  simp [play, hv]

theorem play_same_playing {v : StoreVariant} {id : String} {src : MSource}
    {env : StepEnv} {s : MState} {h : Nat} (hv : isSoundSourceValid src = true)
    (hsb : sameBranch s id = some h) (hpl : s.handles h = .playing) :
    play v id src env s = { state := s, threw := false, events := [] } := by
  simp [play, hv, hsb, hpl]

theorem play_same_resume {v : StoreVariant} {id : String} {src : MSource}
    {env : StepEnv} {s : MState} {h : Nat} (hv : isSoundSourceValid src = true)
    (hsb : sameBranch s id = some h) (hrel : s.handles h ≠ .released)
    (hpl : s.handles h ≠ .playing) :
    play v id src env s =
      { state := { s with handles := upd s.handles h .playing }
        threw := false
        events := [.resumeEv] } := by
  simp [play, hv, hsb, hrel, hpl]

theorem play_same_released {v : StoreVariant} {id : String} {src : MSource}
    {env : StepEnv} {s : MState} {h : Nat} (hv : isSoundSourceValid src = true)
    (hsb : sameBranch s id = some h) (hrel : s.handles h = .released) :
    play v id src env s = playFresh v id src env s := by
  simp [play, hv, hsb, hrel]

theorem play_new_session {v : StoreVariant} {id : String} {src : MSource}
    {env : StepEnv} {s : MState} (hv : isSoundSourceValid src = true)
    (hsb : sameBranch s id = none) :
    play v id src env s = playFresh v id src env s := by
  simp [play, hv, hsb]

theorem pause_eq_some {s : MState} {h : Nat} (h0 : s.sound = some h) :
    pause s = { s with handles := upd s.handles h .paused } := by
  simp [pause, h0]

theorem pause_eq_none {s : MState} (h0 : s.sound = none) : pause s = s := by
  simp [pause, h0]

theorem resume_eq_some {s : MState} {h : Nat} (h0 : s.sound = some h) :
    resume s = { s with handles := upd s.handles h .playing } := by
  simp [resume, h0]

theorem resume_eq_none {s : MState} (h0 : s.sound = none) : resume s = s := by
  simp [resume, h0]

theorem stop_eq_some {s : MState} {h : Nat} (h0 : s.sound = some h) :
    stop s =
      { s with
        handles := upd s.handles h .stopped
        store := { s.store with
                   isPlaying := false
                   positionMillis := 0
                   durationMillis := 0 } } := by
  simp [stop, h0]

theorem stop_eq_none {s : MState} (h0 : s.sound = none) : stop s = s := by
  simp [stop, h0]

theorem setVolume_eq_some {vol : Rat} {s : MState} {h : Nat} (h0 : s.sound = some h) :
    setVolume vol s = { s with store := { s.store with volume := clampVolume vol } } := by
  simp [setVolume, h0]

theorem setVolume_eq_none {vol : Rat} {s : MState} (h0 : s.sound = none) :
    setVolume vol s = s := by
  simp [setVolume, h0]

theorem preload_invalid {id : String} {src : MSource} {env : StepEnv} {s : MState}
    (hv : isSoundSourceValid src = false) : preload id src env s = (s, true) := by
  simp [preload, hv]

theorem preload_hit {id : String} {src : MSource} {env : StepEnv} {s : MState}
    {e : CachedSound} (hv : isSoundSourceValid src = true)
    (hhit : lookupCache s.cache id = some e) : preload id src env s = (s, false) := by
  simp [preload, hv, hhit]

theorem preload_miss_ok {id : String} {src : MSource} {env : StepEnv} {s : MState}
    (hv : isSoundSourceValid src = true) (hmiss : lookupCache s.cache id = none)
    (hok : env.createOk = true) :
    preload id src env s =
      ({ enforceCacheLimit (cleanExpiredCache s) with
          handles := upd (enforceCacheLimit (cleanExpiredCache s)).handles
            (enforceCacheLimit (cleanExpiredCache s)).nextH .stopped
          nextH := (enforceCacheLimit (cleanExpiredCache s)).nextH + 1
          cache := (enforceCacheLimit (cleanExpiredCache s)).cache ++
            [(id, ⟨(enforceCacheLimit (cleanExpiredCache s)).nextH, src,
              (enforceCacheLimit (cleanExpiredCache s)).now⟩)] }, false) := by
  simp [preload, hv, hmiss, hok]

theorem preload_miss_fail {id : String} {src : MSource} {env : StepEnv} {s : MState}
    (hv : isSoundSourceValid src = true) (hmiss : lookupCache s.cache id = none)
    (hko : env.createOk = false) :
    preload id src env s = (enforceCacheLimit (cleanExpiredCache s), true) := by
  simp [preload, hv, hmiss, hko]

/-! ### The single-active-resource invariant -/

theorem inv_init : Inv initState := by
  refine ⟨?_, ?_, ?_, ?_, ?_, ?_⟩ <;> simp [initState, isActive]

theorem inv_clean {s : MState} (hs : Inv s) : Inv (cleanExpiredCache s) := by
  obtain ⟨A, B, C, D, hpw, F⟩ := hs
  refine ⟨?_, ?_, ?_, ?_, ?_, ?_⟩ <;>
    simp only [cleanExpiredCache]
  · intro h hact
    by_cases hmem :
        h ∈ (s.cache.filter (fun p => isExpired s.now p.2)).map (fun p => p.2.h)
    · rw [releaseAll_of_mem _ hmem] at hact
      exact absurd hact not_isActive_released
    · rw [releaseAll_of_not_mem _ hmem] at hact
      exact A h hact
  · intro p hp
    obtain ⟨hp1, hp2⟩ := List.mem_filter.mp hp
    have hnm : p.2.h ∉
        (s.cache.filter (fun p => isExpired s.now p.2)).map (fun p => p.2.h) := by
      intro hcontra
      obtain ⟨q, hq, hqh⟩ := List.mem_map.mp hcontra
      obtain ⟨hq1, hq2⟩ := List.mem_filter.mp hq
      have hne : q ≠ p := by
        intro hqp
        rw [hqp] at hq2
        simp at hp2
        rw [hp2] at hq2
        cases hq2
      exact pairwise_ne_handles hpw q hq1 p hp1 hne hqh
    rw [releaseAll_of_not_mem _ hnm]
    exact B p hp1
  · intro p hp
    exact C p (List.mem_filter.mp hp).1
  · exact D
  · exact hpw.filter _
  · intro h hsnd p hp
    exact F h hsnd p (List.mem_filter.mp hp).1

theorem inv_enforce {s : MState} (hs : Inv s) : Inv (enforceCacheLimit s) := by
  obtain ⟨A, B, C, D, hpw, F⟩ := hs
  unfold enforceCacheLimit
  split
  · split
    · exact ⟨A, B, C, D, hpw, F⟩
    · rename_i p rest heq
      split
      · exact ⟨A, B, C, D, hpw, F⟩
      · rw [heq] at hpw B C F
        refine ⟨?_, ?_, ?_, D, hpw.sublist (List.sublist_cons_self p rest), ?_⟩
        · intro h hact
          dsimp only at hact ⊢
          by_cases hph : h = p.2.h
          · subst hph
            rw [upd_self] at hact
            exact absurd hact not_isActive_released
          · rw [upd_of_ne _ _ _ hph] at hact
            exact A h hact
        · intro q hq
          dsimp only at hq ⊢
          have hne : q.2.h ≠ p.2.h := by
            have := (List.pairwise_cons.mp hpw).1 q hq
            exact fun hh => this hh.symm
          rw [upd_of_ne _ _ _ hne]
          exact B q (List.mem_cons_of_mem _ hq)
        · intro q hq
          exact C q (List.mem_cons_of_mem _ hq)
        · intro h hsnd q hq
          exact F h hsnd q (List.mem_cons_of_mem _ hq)
  · exact ⟨A, B, C, D, hpw, F⟩

theorem inv_preload {id : String} {src : MSource} {env : StepEnv} {s : MState}
    (hs : Inv s) : Inv (preload id src env s).1 := by
  cases hv : isSoundSourceValid src with
  | false =>
    rw [preload_invalid hv]
    exact hs
  | true =>
    cases hmiss : lookupCache s.cache id with
    | some e =>
      rw [preload_hit hv hmiss]
      exact hs
    | none =>
      have hs1 := inv_enforce (inv_clean hs)
      cases hok : env.createOk with
      | false =>
        rw [preload_miss_fail hv hmiss hok]
        exact hs1
      | true =>
        rw [preload_miss_ok hv hmiss hok]
        obtain ⟨A, B, C, D, hpw, F⟩ := hs1
        refine ⟨?_, ?_, ?_, ?_, ?_, ?_⟩
        · intro h hact
          dsimp only at hact ⊢
          by_cases hph : h = (enforceCacheLimit (cleanExpiredCache s)).nextH
          · subst hph
            rw [upd_self] at hact
            exact absurd hact not_isActive_stopped
          · rw [upd_of_ne _ _ _ hph] at hact
            exact A h hact
        · intro q hq
          dsimp only at hq ⊢
          rcases List.mem_append.mp hq with hq' | hq'
          · have hne : q.2.h ≠ (enforceCacheLimit (cleanExpiredCache s)).nextH :=
              Nat.ne_of_lt (C q hq')
            rw [upd_of_ne _ _ _ hne]
            exact B q hq'
          · simp at hq'
            rw [hq']
            exact upd_self _ _ _
        · intro q hq
          dsimp only at hq ⊢
          rcases List.mem_append.mp hq with hq' | hq'
          · exact Nat.lt_succ_of_lt (C q hq')
          · simp at hq'
            rw [hq']
            exact Nat.lt_succ_self _
        · intro h hsnd
          exact Nat.lt_succ_of_lt (D h hsnd)
        · dsimp only
          refine List.pairwise_append.mpr ⟨hpw, List.pairwise_singleton _ _, ?_⟩
          intro a ha b hb
          simp at hb
          rw [hb]
          exact Nat.ne_of_lt (C a ha)
        · intro h hsnd q hq
          dsimp only at hsnd hq ⊢
          rcases List.mem_append.mp hq with hq' | hq'
          · exact F h hsnd q hq'
          · simp at hq'
            rw [hq']
            exact (Nat.ne_of_lt (D h hsnd)).symm

theorem unload_spec {v : StoreVariant} {s : MState} (hs : Inv s) :
    Inv (unload v s) ∧ (unload v s).sound = none ∧
    (unload v s).cache = s.cache ∧ (unload v s).nextH = s.nextH ∧
    (unload v s).now = s.now ∧ ∀ n : Nat, ¬ isActive ((unload v s).handles n) := by
  obtain ⟨A, B, C, D, hpw, F⟩ := hs
  cases h0 : s.sound with
  | none =>
    have hnoact : ∀ n : Nat, ¬ isActive ((unload v s).handles n) := by
      intro n hact
      simp only [unload, h0] at hact
      have := A n hact
      rw [h0] at this
      cases this
    refine ⟨⟨?_, ?_, ?_, ?_, ?_, ?_⟩, ?_, ?_, ?_, ?_, hnoact⟩ <;>
      simp only [unload, h0]
    · intro n hact
      exact absurd hact (by simpa [unload, h0] using hnoact n)
    · exact B
    · exact C
    · simp
    · exact hpw
    · simp
  | some h =>
    have hnoact : ∀ n : Nat, ¬ isActive ((unload v s).handles n) := by
      intro n hact
      simp only [unload, h0] at hact
      by_cases hnh : n = h
      · subst hnh
        rw [upd_self] at hact
        exact absurd hact not_isActive_released
      · rw [upd_of_ne _ _ _ hnh] at hact
        have := A n hact
        rw [h0] at this
        exact hnh (Option.some_injective _ this).symm
    refine ⟨⟨?_, ?_, ?_, ?_, ?_, ?_⟩, ?_, ?_, ?_, ?_, hnoact⟩ <;>
      simp only [unload, h0]
    · intro n hact
      exact absurd hact (by simpa [unload, h0] using hnoact n)
    · intro q hq
      have hne : q.2.h ≠ h := F h h0 q hq
      rw [upd_of_ne _ _ _ hne]
      exact B q hq
    · exact C
    · simp
    · exact hpw
    · simp

theorem inv_playFresh {v : StoreVariant} {id : String} {src : MSource}
    {env : StepEnv} {s : MState} (hs : Inv s) :
    Inv (playFresh v id src env s).state := by
  obtain ⟨hinv0, hsnd0, hcache0, hnext0, hnow0, hnoact⟩ := unload_spec (v := v) hs
  obtain ⟨A, B, C, D, hpw, F⟩ := hinv0
  cases heq : lookupCache (unload v s).cache id with
  | some e =>
    have hmem : (id, e) ∈ (unload v s).cache := lookupCache_some_mem heq
    have hfilter_ne : ∀ q ∈ (unload v s).cache.filter (fun p => !decide (p.1 = id)),
        q.2.h ≠ e.h := by
      intro q hq
      obtain ⟨hq1, hq2⟩ := List.mem_filter.mp hq
      have hne : q ≠ (id, e) := by
        intro hqe
        rw [hqe] at hq2
        simp at hq2
      exact pairwise_ne_handles hpw q hq1 (id, e) hmem hne
    cases hok : env.startOk with
    | true =>
      rw [playFresh_promote_ok heq hok]
      refine ⟨?_, ?_, ?_, ?_, ?_, ?_⟩ <;> dsimp only
      · intro n hact
        by_cases hne : n = e.h
        · subst hne; rfl
        · rw [upd_of_ne _ _ _ hne] at hact
          exact absurd hact (hnoact n)
      · intro q hq
        rw [upd_of_ne _ _ _ (hfilter_ne q hq)]
        exact B q (List.mem_filter.mp hq).1
      · intro q hq
        exact C q (List.mem_filter.mp hq).1
      · intro n hn
        injection hn with hn
        subst hn
        exact C (id, e) hmem
      · exact hpw.filter _
      · intro n hn q hq
        injection hn with hn
        subst hn
        exact hfilter_ne q hq
    | false =>
      rw [playFresh_promote_fail heq hok]
      refine ⟨?_, ?_, ?_, ?_, ?_, ?_⟩ <;> dsimp only
      · intro n hact
        exact absurd hact (hnoact n)
      · intro q hq
        exact B q (List.mem_filter.mp hq).1
      · intro q hq
        exact C q (List.mem_filter.mp hq).1
      · intro n hn
        injection hn with hn
        subst hn
        exact C (id, e) hmem
      · exact hpw.filter _
      · intro n hn q hq
        injection hn with hn
        subst hn
        exact hfilter_ne q hq
  | none =>
    cases hok : env.createOk with
    | true =>
      rw [playFresh_create_ok heq hok]
      refine ⟨?_, ?_, ?_, ?_, ?_, ?_⟩ <;> dsimp only
      · intro n hact
        by_cases hne : n = (unload v s).nextH
        · subst hne; rfl
        · rw [upd_of_ne _ _ _ hne] at hact
          exact absurd hact (hnoact n)
      · intro q hq
        rw [upd_of_ne _ _ _ (Nat.ne_of_lt (C q hq))]
        exact B q hq
      · intro q hq
        exact Nat.lt_succ_of_lt (C q hq)
      · intro n hn
        injection hn with hn
        subst hn
        exact Nat.lt_succ_self _
      · exact hpw
      · intro n hn q hq
        injection hn with hn
        subst hn
        exact Nat.ne_of_lt (C q hq)
    | false =>
      rw [playFresh_create_fail heq hok]
      refine ⟨?_, ?_, ?_, ?_, ?_, ?_⟩ <;> dsimp only
      · intro n hact
        exact absurd hact (hnoact n)
      · intro q hq
        exact B q hq
      · intro q hq
        exact C q hq
      · intro n hn
        rw [hsnd0] at hn
        cases hn
      · exact hpw
      · intro n hn q hq
        rw [hsnd0] at hn
        cases hn

theorem inv_play {v : StoreVariant} {id : String} {src : MSource}
    {env : StepEnv} {s : MState} (hs : Inv s) :
    Inv (play v id src env s).state := by
  cases hv : isSoundSourceValid src with
  | false =>
    rw [play_invalid hv]
    obtain ⟨A, B, C, D, hpw, F⟩ := hs
    exact ⟨A, B, C, D, hpw, F⟩
  | true =>
    cases hsb : sameBranch s id with
    | none =>
      rw [play_new_session hv hsb]
      exact inv_playFresh hs
    | some h =>
      have hsound := sameBranch_some hsb
      by_cases hrel : s.handles h = .released
      · rw [play_same_released hv hsb hrel]
        exact inv_playFresh hs
      · by_cases hpl : s.handles h = .playing
        · rw [play_same_playing hv hsb hpl]
          exact hs
        · rw [play_same_resume hv hsb hrel hpl]
          obtain ⟨A, B, C, D, hpw, F⟩ := hs
          refine ⟨?_, ?_, C, D, hpw, F⟩
          · intro n hact
            dsimp only at hact ⊢
            by_cases hne : n = h
            · subst hne
              exact hsound
            · rw [upd_of_ne _ _ _ hne] at hact
              exact A n hact
          · intro q hq
            dsimp only at hq ⊢
            rw [upd_of_ne _ _ _ (F h hsound q hq)]
            exact B q hq

theorem inv_pause {s : MState} (hs : Inv s) : Inv (pause s) := by
  obtain ⟨A, B, C, D, hpw, F⟩ := hs
  cases h0 : s.sound with
  | none =>
    rw [pause_eq_none h0]
    exact ⟨A, B, C, D, hpw, F⟩
  | some h =>
    rw [pause_eq_some h0]
    refine ⟨?_, ?_, C, D, hpw, F⟩
    · intro n hact
      dsimp only at hact ⊢
      by_cases hne : n = h
      · subst hne
        exact h0
      · rw [upd_of_ne _ _ _ hne] at hact
        exact A n hact
    · intro q hq
      dsimp only at hq ⊢
      rw [upd_of_ne _ _ _ (F h h0 q hq)]
      exact B q hq

theorem inv_resume {s : MState} (hs : Inv s) : Inv (resume s) := by
  obtain ⟨A, B, C, D, hpw, F⟩ := hs
  cases h0 : s.sound with
  | none =>
    rw [resume_eq_none h0]
    exact ⟨A, B, C, D, hpw, F⟩
  | some h =>
    rw [resume_eq_some h0]
    refine ⟨?_, ?_, C, D, hpw, F⟩
    · intro n hact
      dsimp only at hact ⊢
      by_cases hne : n = h
      · subst hne
        exact h0
      · rw [upd_of_ne _ _ _ hne] at hact
        exact A n hact
    · intro q hq
      dsimp only at hq ⊢
      rw [upd_of_ne _ _ _ (F h h0 q hq)]
      exact B q hq

theorem inv_stop {s : MState} (hs : Inv s) : Inv (stop s) := by
  obtain ⟨A, B, C, D, hpw, F⟩ := hs
  cases h0 : s.sound with
  | none =>
    rw [stop_eq_none h0]
    exact ⟨A, B, C, D, hpw, F⟩
  | some h =>
    rw [stop_eq_some h0]
    refine ⟨?_, ?_, C, D, hpw, F⟩
    · intro n hact
      dsimp only at hact ⊢
      by_cases hne : n = h
      · subst hne
        rw [upd_self] at hact
        exact absurd hact not_isActive_stopped
      · rw [upd_of_ne _ _ _ hne] at hact
        exact A n hact
    · intro q hq
      dsimp only at hq ⊢
      rw [upd_of_ne _ _ _ (F h h0 q hq)]
      exact B q hq

theorem inv_setVolume {vol : Rat} {s : MState} (hs : Inv s) : Inv (setVolume vol s) := by
  obtain ⟨A, B, C, D, hpw, F⟩ := hs
  cases h0 : s.sound with
  | none =>
    rw [setVolume_eq_none h0]
    exact ⟨A, B, C, D, hpw, F⟩
  | some h =>
    rw [setVolume_eq_some h0]
    exact ⟨A, B, C, D, hpw, F⟩

theorem inv_clearCache {s : MState} (hs : Inv s) : Inv (clearCache s) := by
  obtain ⟨A, B, C, D, hpw, F⟩ := hs
  refine ⟨?_, ?_, ?_, D, ?_, ?_⟩ <;> simp only [clearCache]
  · intro n hact
    by_cases hmem : n ∈ s.cache.map (fun p => p.2.h)
    · rw [releaseAll_of_mem _ hmem] at hact
      exact absurd hact not_isActive_released
    · rw [releaseAll_of_not_mem _ hmem] at hact
      exact A n hact
  · intro q hq
    cases hq
  · intro q hq
    cases hq
  · exact List.Pairwise.nil
  · intro n hn q hq
    cases hq

theorem inv_exec {v : StoreVariant} {op : Op} {s : MState} (hs : Inv s) :
    Inv (exec v op s) := by
  cases op with
  | play id src env => exact inv_play hs
  | preload id src env => exact inv_preload hs
  | pause => exact inv_pause hs
  | resume => exact inv_resume hs
  | stop => exact inv_stop hs
  | seek p => exact hs
  | setVolume vol => exact inv_setVolume hs
  | setRate r => exact hs
  | unload => exact (unload_spec hs).1
  | clearCache => exact inv_clearCache hs
  | tick ms =>
    obtain ⟨A, B, C, D, hpw, F⟩ := hs
    exact ⟨A, B, C, D, hpw, F⟩
  | status st =>
    obtain ⟨A, B, C, D, hpw, F⟩ := hs
    exact ⟨A, B, C, D, hpw, F⟩

theorem inv_runOps (v : StoreVariant) (ops : List Op) : Inv (runOps v ops) := by
  have hgen : ∀ (l : List Op) (s : MState), Inv s →
      Inv (l.foldl (fun s op => exec v op s) s) := by
    intro l
    induction l with
    | nil => intro s hs; exact hs
    | cons op rest ih =>
      intro s hs
      exact ih _ (inv_exec hs)
  exact hgen ops initState inv_init

/-! ### Further structural lemmas used by the claim theorems -/

theorem unload_cache (v : StoreVariant) (s : MState) : (unload v s).cache = s.cache := by
  cases h0 : s.sound <;> simp [unload, h0]

theorem unload_nextH (v : StoreVariant) (s : MState) : (unload v s).nextH = s.nextH := by
  cases h0 : s.sound <;> simp [unload, h0]

theorem unload_now (v : StoreVariant) (s : MState) : (unload v s).now = s.now := by
  cases h0 : s.sound <;> simp [unload, h0]

theorem unload_sound_none (v : StoreVariant) (s : MState) : (unload v s).sound = none := by
  cases h0 : s.sound <;> simp [unload, h0]

theorem unload_currentId_none (v : StoreVariant) (s : MState) :
    (unload v s).currentId = none := by
  cases h0 : s.sound <;> simp [unload, h0]

theorem unload_store (v : StoreVariant) (s : MState) :
    (unload v s).store = resetStore v s.store := by
  cases h0 : s.sound <;> simp [unload, h0]

theorem releaseAll_nil (f : Nat → HStatus) : releaseAll [] f = f := by
  funext n
  simp [releaseAll]

theorem upd_released_of {f : Nat → HStatus} {k n : Nat} (h : f n = .released) :
    upd f k .released n = .released := by
  by_cases hk : n = k
  · subst hk
    exact upd_self _ _ _
  · rw [upd_of_ne _ _ _ hk]
    exact h

theorem clean_noexpired {s : MState}
    (h : ∀ p ∈ s.cache, isExpired s.now p.2 = false) : cleanExpiredCache s = s := by
  unfold cleanExpiredCache
  have h1 : s.cache.filter (fun p => !isExpired s.now p.2) = s.cache :=
    List.filter_eq_self.mpr (by intro p hp; rw [h p hp]; rfl)
  have h2 : s.cache.filter (fun p => isExpired s.now p.2) = [] :=
    List.filter_eq_nil_iff.mpr (by intro p hp; rw [h p hp]; exact Bool.false_ne_true)
  rw [h1, h2, List.map_nil, releaseAll_nil]

theorem enforce_small {s : MState} (h : s.cache.length < maxCacheSize) :
    enforceCacheLimit s = s := by
  unfold enforceCacheLimit
  rw [if_neg (Nat.not_le.mpr h)]

theorem enforce_evict {s : MState} {p : String × CachedSound}
    {rest : List (String × CachedSound)} (hc : s.cache = p :: rest)
    (hlen : maxCacheSize ≤ rest.length + 1) (hne : p.1 ≠ "") :
    enforceCacheLimit s =
      { s with cache := rest, handles := upd s.handles p.2.h .released } := by
  unfold enforceCacheLimit
  rw [hc]
  simp [hlen, hne]

theorem enforce_nextH (s : MState) : (enforceCacheLimit s).nextH = s.nextH := by
  unfold enforceCacheLimit
  split
  · split
    · rfl
    · split <;> rfl
  · rfl

theorem enforce_now (s : MState) : (enforceCacheLimit s).now = s.now := by
  unfold enforceCacheLimit
  split
  · split
    · rfl
    · split <;> rfl
  · rfl

theorem enforce_mem {s : MState} {p : String × CachedSound}
    (hp : p ∈ (enforceCacheLimit s).cache) : p ∈ s.cache := by
  revert hp
  unfold enforceCacheLimit
  split
  · split
    · exact fun hp => hp
    · rename_i q rest heq
      split
      · exact fun hp => hp
      · intro hp
        rw [heq]
        exact List.mem_cons_of_mem _ hp
  · exact fun hp => hp

theorem enforce_handles_released {s : MState} {n : Nat}
    (h : s.handles n = .released) : (enforceCacheLimit s).handles n = .released := by
  unfold enforceCacheLimit
  split
  · split
    · exact h
    · split
      · exact h
      · exact upd_released_of h
  · exact h

theorem resolve_download_flag (storage : Option (List (String × String)))
    (cached : List String) (snd : RSound) :
    (resolve storage cached true snd).result = (resolve storage cached false snd).result ∧
    (resolve storage cached true snd).errorToUI = none ∧
    (resolve storage cached false snd).errorToUI = none := by
  unfold resolve
  cases hla : snd.localAsset with
  | some a =>
    exact ⟨rfl, rfl, rfl⟩
  | none =>
    by_cases h1 : (strTruthy snd.storageUrl && strTruthy snd.filename) = true
    · rw [if_pos h1, if_pos h1]
      by_cases h2 : snd.filename.getD "" ∈ cached
      · rw [if_pos h2, if_pos h2]
        exact ⟨rfl, rfl, rfl⟩
      · rw [if_neg h2, if_neg h2]
        cases storage with
        | none => exact ⟨rfl, rfl, rfl⟩
        | some table =>
          cases hlk : lookupUrl table (snd.storageUrl.getD "") with
          | some url =>
            simp [hlk, downloadAndCache, catchBackground]
          | none =>
            simp [hlk]
    · rw [if_neg h1, if_neg h1]
      by_cases h3 : (strTruthy snd.storageUrl &&
          (snd.storageUrl.getD "").startsWith "http") = true
      · rw [if_pos h3]
        exact ⟨rfl, rfl, rfl⟩
      · rw [if_neg h3]
        exact ⟨rfl, rfl, rfl⟩

/-! ### The claims -/

/-- Claim C1: in every state reachable by a sequence of Coordinator
operations from the initial state, at most one native handle is Playing or
Paused system-wide; handles held in the preload cache are never playing or
paused while cached (they were created with shouldPlay=false and stay
loaded-idle); and a new-session `play` releases the previously active session
handle (via the leading `unload`) before it creates or promotes any handle. -/
theorem claim1_single_active (v : StoreVariant) (ops : List Op) :
    (∀ h1 h2 : Nat, isActive ((runOps v ops).handles h1) →
      isActive ((runOps v ops).handles h2) → h1 = h2) ∧
    (∀ p ∈ (runOps v ops).cache, (runOps v ops).handles p.2.h = .stopped) ∧
    (∀ (id : String) (src : MSource) (env : StepEnv) (h : Nat),
      (runOps v ops).sound = some h → sameBranch (runOps v ops) id = none →
      isSoundSourceValid src = true →
      (play v id src env (runOps v ops)).state.handles h = .released) := by
  obtain ⟨A, B, C, D, hpw, F⟩ := inv_runOps v ops
  refine ⟨?_, B, ?_⟩
  · intro h1 h2 ha1 ha2
    have e1 := A h1 ha1
    have e2 := A h2 ha2
    rw [e1] at e2
    injection e2
  · intro id src env h hsnd hsb hv
    rw [play_new_session hv hsb]
    have hrel : (unload v (runOps v ops)).handles h = .released := by
      rw [unload_eq_some hsnd]
      exact upd_self _ _ _
    cases heq : lookupCache (unload v (runOps v ops)).cache id with
    | some e =>
      have hmem : (id, e) ∈ (runOps v ops).cache := by
        rw [← unload_cache v (runOps v ops)]
        exact lookupCache_some_mem heq
      have hne : h ≠ e.h := fun hh => F h hsnd (id, e) hmem hh.symm
      cases hok : env.startOk with
      | true =>
        rw [playFresh_promote_ok heq hok]
        dsimp only
        rw [upd_of_ne _ _ _ hne]
        exact hrel
      | false =>
        rw [playFresh_promote_fail heq hok]
        exact hrel
    | none =>
      cases hok : env.createOk with
      | true =>
        rw [playFresh_create_ok heq hok]
        dsimp only
        have hne : h ≠ (unload v (runOps v ops)).nextH := by
          rw [unload_nextH]
          exact Nat.ne_of_lt (D h hsnd)
        rw [upd_of_ne _ _ _ hne]
        exact hrel
      | false =>
        rw [playFresh_create_fail heq hok]
        exact hrel

/-- Witness for C1: the play/preload trace leaves handle 0 playing and handle 1
cached-stopped; a further new-session play releases handle 0. -/
theorem claim1_single_active_witness :
    (0 : Nat) = 0 ∧
    (runOps .zustand demoOps).handles 1 = .stopped ∧
    (play .zustand "c" (.asset 3) demoEnv (runOps .zustand demoOps)).state.handles 0 =
      .released :=
  ⟨(claim1_single_active .zustand demoOps).1 0 0 (by decide) (by decide),
   (claim1_single_active .zustand demoOps).2.1 ("b", ⟨1, .asset 2, 0⟩) (by decide),
   (claim1_single_active .zustand demoOps).2.2 "c" (.asset 3) demoEnv 0
     (by decide) (by decide) (by decide)⟩

/-- Claim C2 (code-bug evidence): preload "a", then play "a" with the
post-assignment start step rejecting; at the resulting operation boundary the
session handle is still set while currentId is null, so "handle non-null iff
currentId non-null" is broken: the catch block of `play` resets only
`this.currentId`, never `this.sound`. -/
theorem claim2_failing_state :
    (play .zustand "a" (.asset 1) failStartEnv
        (preload "a" (.asset 1) demoEnv initState).1).state.sound = some 0 ∧
    (play .zustand "a" (.asset 1) failStartEnv
        (preload "a" (.asset 1) demoEnv initState).1).state.currentId = none ∧
    (play .zustand "a" (.asset 1) failStartEnv
        (preload "a" (.asset 1) demoEnv initState).1).threw = true := by
  decide

/-- Claim C3 (amended): on the new-session path the coordinator records
currentId and clears UIState.error immediately after the handle creation
completes (not before it, as the spec says) and before issuing the play
command; on a failed creation, and on a failed start after a cache promotion,
it ends with currentId rolled back to none, the failure message recorded in
UIState.error, and the exception re-thrown. -/
theorem claim3_optimistic_rollback (v : StoreVariant) (id : String)
    (src : MSource) (env : StepEnv) (s : MState)
    (hv : isSoundSourceValid src = true) (hsb : sameBranch s id = none) :
    (lookupCache s.cache id = none → env.createOk = true →
      (play v id src env s).events =
        [.unloadEv, .createDoneEv, .setCurrentEv, .clearErrorEv, .startEv] ∧
      (play v id src env s).state.currentId = some id ∧
      (play v id src env s).state.store.error = none ∧
      (play v id src env s).threw = false) ∧
    (lookupCache s.cache id = none → env.createOk = false →
      (play v id src env s).state.currentId = none ∧
      (play v id src env s).state.store.error = some env.msg ∧
      (play v id src env s).threw = true) ∧
    (∀ e : CachedSound, lookupCache s.cache id = some e → env.startOk = false →
      (play v id src env s).state.currentId = none ∧
      (play v id src env s).state.store.error = some env.msg ∧
      (play v id src env s).threw = true) := by
  rw [play_new_session hv hsb]
  refine ⟨?_, ?_, ?_⟩
  · intro hmiss hok
    rw [playFresh_create_ok (by rw [unload_cache]; exact hmiss) hok]
    exact ⟨rfl, rfl, rfl, rfl⟩
  · intro hmiss hko
    rw [playFresh_create_fail (by rw [unload_cache]; exact hmiss) hko]
    exact ⟨unload_currentId_none v s, rfl, rfl⟩
  · intro e hhit hko
    rw [playFresh_promote_fail (by rw [unload_cache]; exact hhit) hko]
    exact ⟨rfl, rfl, rfl⟩

/-- Witness for C3 at a concrete new-session play. -/
theorem claim3_optimistic_rollback_witness :
    (play .createStore "a" (.asset 1) demoEnv initState).events =
      [.unloadEv, .createDoneEv, .setCurrentEv, .clearErrorEv, .startEv] ∧
    (play .createStore "a" (.asset 1) demoEnv initState).state.currentId = some "a" ∧
    (play .createStore "a" (.asset 1) demoEnv initState).state.store.error = none ∧
    (play .createStore "a" (.asset 1) demoEnv initState).threw = false :=
  (claim3_optimistic_rollback .createStore "a" (.asset 1) demoEnv initState
    (by decide) (by decide)).1 (by decide) (by decide)

/-- Claim C3 counterexample: for a fresh-create play the event log shows
handle creation completing strictly before currentId is recorded and the
error cleared, refuting "records ... before the handle creation completes". -/
theorem claim3_counterexample :
    evBefore (play .zustand "b" (.asset 2) demoEnv initState).events
      .setCurrentEv .createDoneEv = false ∧
    evBefore (play .zustand "b" (.asset 2) demoEnv initState).events
      .createDoneEv .setCurrentEv = true ∧
    evBefore (play .zustand "b" (.asset 2) demoEnv initState).events
      .clearErrorEv .createDoneEv = false := by
  decide

/-- Claim C4: same-id behaviour of play.  When the requested id equals the
loaded currentId and the handle reports itself loaded: if playing, play is a
complete no-op (no handle creation, no events, nothing thrown); if loaded but
not playing, play resumes the existing handle in place with no reload.
Consequently two successive plays of the same id from a new session invoke
handle creation exactly once and the second call changes nothing. -/
theorem claim4_sameId_idempotent :
    (∀ (v : StoreVariant) (id : String) (src : MSource) (env : StepEnv)
        (s : MState) (h : Nat),
        isSoundSourceValid src = true → sameBranch s id = some h →
        s.handles h ≠ .released →
        (play v id src env s).threw = false ∧
        (play v id src env s).state.nextH = s.nextH ∧
        (play v id src env s).state.cache = s.cache ∧
        countCreate (play v id src env s).events = 0 ∧
        (s.handles h = .playing →
          (play v id src env s).state = s ∧ (play v id src env s).events = []) ∧
        (s.handles h ≠ .playing →
          (play v id src env s).state = { s with handles := upd s.handles h .playing } ∧
          (play v id src env s).events = [.resumeEv])) ∧
    (∀ (v : StoreVariant) (id : String) (src : MSource) (env : StepEnv) (s : MState),
        isSoundSourceValid src = true → sameBranch s id = none →
        lookupCache s.cache id = none → env.createOk = true →
        countCreate (play v id src env s).events = 1 ∧
        play v id src env (play v id src env s).state =
          { state := (play v id src env s).state, threw := false, events := [] }) := by
  constructor
  · intro v id src env s h hv hsb hrel
    by_cases hpl : s.handles h = .playing
    · rw [play_same_playing hv hsb hpl]
      exact ⟨rfl, rfl, rfl, rfl, fun _ => ⟨rfl, rfl⟩, fun hc => absurd hpl hc⟩
    · rw [play_same_resume hv hsb hrel hpl]
      exact ⟨rfl, rfl, rfl, rfl, fun hc => absurd hc hpl, fun _ => ⟨rfl, rfl⟩⟩
  · intro v id src env s hv hsb hmiss hok
    rw [play_new_session hv hsb,
      playFresh_create_ok (by rw [unload_cache]; exact hmiss) hok]
    refine ⟨rfl, ?_⟩
    have hsb2 : sameBranch
        { sound := some (unload v s).nextH
          currentId := some id
          cache := (unload v s).cache
          store := { (unload v s).store with
                     currentId := some id
                     currentSource := some src
                     error := none }
          handles := upd (unload v s).handles (unload v s).nextH .playing
          nextH := (unload v s).nextH + 1
          now := (unload v s).now } id = some ((unload v s).nextH) := by
      simp [sameBranch]
    rw [play_same_playing hv hsb2 (upd_self _ _ _)]

/-- Witness for C4: the no-op on an already-playing session and the single
creation across two successive plays. -/
theorem claim4_sameId_idempotent_witness :
    (play .zustand "a" (.asset 1) demoEnv demoPlaying).state = demoPlaying ∧
    countCreate (play .zustand "a" (.asset 1) demoEnv initState).events = 1 :=
  ⟨((claim4_sameId_idempotent.1 .zustand "a" (.asset 1) demoEnv demoPlaying 0
      (by decide) (by decide) (by decide)).2.2.2.2.1 (by decide)).1,
   (claim4_sameId_idempotent.2 .zustand "a" (.asset 1) demoEnv initState
      (by decide) (by decide) (by decide) (by decide)).1⟩

/-- Claim C5 (amended): preloading 4 distinct ids (within the TTL, the oldest
id nonempty) leaves exactly the 3 most recently inserted ids, in insertion
order; the oldest entry's handle is released; the cache never exceeds 3
entries; and all four preloads succeed.  The nonemptiness of the oldest id is
required because `enforceCacheLimit` guards eviction with JS truthiness of the
first key. -/
theorem claim5_cache_bound (id1 id2 id3 id4 : String) (src : MSource)
    (hv : isSoundSourceValid src = true) (h1e : id1 ≠ "")
    (h12 : id1 ≠ id2) (h13 : id1 ≠ id3) (h14 : id1 ≠ id4)
    (h23 : id2 ≠ id3) (h24 : id2 ≠ id4) (h34 : id3 ≠ id4) :
    (preState1 id1 src).2 = false ∧ (preState2 id1 id2 src).2 = false ∧
    (preState3 id1 id2 id3 src).2 = false ∧
    (preState4 id1 id2 id3 id4 src).2 = false ∧
    (preState1 id1 src).1.cache.map Prod.fst = [id1] ∧
    (preState2 id1 id2 src).1.cache.map Prod.fst = [id1, id2] ∧
    (preState3 id1 id2 id3 src).1.cache.map Prod.fst = [id1, id2, id3] ∧
    (preState4 id1 id2 id3 id4 src).1.cache.map Prod.fst = [id2, id3, id4] ∧
    (preState4 id1 id2 id3 id4 src).1.handles 0 = .released := by
  have hm1 : lookupCache initState.cache id1 = none := rfl
  have hcl1 : cleanExpiredCache initState = initState :=
    clean_noexpired (by intro p hp; cases hp)
  have hen1 : enforceCacheLimit initState = initState := enforce_small (by decide)
  have E1 : preState1 id1 src = (bst1 id1 src, false) := by
    unfold preState1
    rw [preload_miss_ok hv hm1 (rfl : preOkEnv.createOk = true), hcl1, hen1]
    rfl
  have hm2 : lookupCache (bst1 id1 src).cache id2 = none := by
    simp [bst1, initState, lookupCache, h12]
  have hcl2 : cleanExpiredCache (bst1 id1 src) = bst1 id1 src :=
    clean_noexpired (by intro p hp; simp [bst1, initState] at hp; subst hp; rfl)
  have hen2 : enforceCacheLimit (bst1 id1 src) = bst1 id1 src :=
    enforce_small (by simp [bst1, initState, maxCacheSize])
  have E2 : preState2 id1 id2 src = (bst2 id1 id2 src, false) := by
    unfold preState2
    rw [E1]
    dsimp only
    rw [preload_miss_ok hv hm2 (rfl : preOkEnv.createOk = true), hcl2, hen2]
    rfl
  have hm3 : lookupCache (bst2 id1 id2 src).cache id3 = none := by
    simp [bst2, initState, lookupCache, h13, h23]
  have hcl3 : cleanExpiredCache (bst2 id1 id2 src) = bst2 id1 id2 src :=
    clean_noexpired
      (by intro p hp; simp [bst2, initState] at hp; rcases hp with h | h <;> (subst h; rfl))
  have hen3 : enforceCacheLimit (bst2 id1 id2 src) = bst2 id1 id2 src :=
    enforce_small (by simp [bst2, initState, maxCacheSize])
  have E3 : preState3 id1 id2 id3 src = (bst3 id1 id2 id3 src, false) := by
    unfold preState3
    rw [E2]
    dsimp only
    rw [preload_miss_ok hv hm3 (rfl : preOkEnv.createOk = true), hcl3, hen3]
    rfl
  have hm4 : lookupCache (bst3 id1 id2 id3 src).cache id4 = none := by
    simp [bst3, initState, lookupCache, h14, h24, h34]
  have hcl4 : cleanExpiredCache (bst3 id1 id2 id3 src) = bst3 id1 id2 id3 src :=
    clean_noexpired
      (by intro p hp; simp [bst3, initState] at hp
          rcases hp with h | h | h <;> (subst h; rfl))
  have hen4 : enforceCacheLimit (bst3 id1 id2 id3 src) =
      { bst3 id1 id2 id3 src with
        cache := [(id2, ⟨1, src, 0⟩), (id3, ⟨2, src, 0⟩)]
        handles := upd (bst3 id1 id2 id3 src).handles 0 .released } :=
    enforce_evict rfl (by simp [maxCacheSize]) h1e
  have E4 : preState4 id1 id2 id3 id4 src = (bst4 id1 id2 id3 id4 src, false) := by
    unfold preState4
    rw [E3]
    dsimp only
    rw [preload_miss_ok hv hm4 (rfl : preOkEnv.createOk = true), hcl4, hen4]
    rfl
  refine ⟨?_, ?_, ?_, ?_, ?_, ?_, ?_, ?_, ?_⟩
  · rw [E1]
  · rw [E2]
  · rw [E3]
  · rw [E4]
  · rw [E1]
    simp [bst1]
  · rw [E2]
    simp [bst2]
  · rw [E3]
    simp [bst3]
  · rw [E4]
    simp [bst4]
  · rw [E4]
    simp [bst4, upd]

/-- Witness for C5 at four concrete ids. -/
theorem claim5_cache_bound_witness :
    (preState4 "a" "b" "c" "d" (.asset 9)).1.cache.map Prod.fst = ["b", "c", "d"] ∧
    (preState4 "a" "b" "c" "d" (.asset 9)).1.handles 0 = .released :=
  ⟨(claim5_cache_bound "a" "b" "c" "d" (.asset 9) (by decide) (by decide) (by decide)
      (by decide) (by decide) (by decide) (by decide) (by decide)).2.2.2.2.2.2.2.1,
   (claim5_cache_bound "a" "b" "c" "d" (.asset 9) (by decide) (by decide) (by decide)
      (by decide) (by decide) (by decide) (by decide) (by decide)).2.2.2.2.2.2.2.2⟩

/-- Claim C5 counterexample: with the empty string as the oldest of 4 distinct
ids, the `if (firstKey)` guard of `enforceCacheLimit` skips eviction and the
cache ends with 4 entries — refuting "exactly the 3 most-recently-inserted ids
remain" and "at no point more than 3 entries" as stated for arbitrary ids. -/
theorem claim5_counterexample :
    (preState4 "" "a" "b" "c" (.asset 1)).1.cache.map Prod.fst = ["", "a", "b", "c"] ∧
    maxCacheSize < (preState4 "" "a" "b" "c" (.asset 1)).1.cache.length := by
  decide

/-- Claim C6 (amended): expiry is enforced by the lazy sweep that runs at the
start of a preload of an uncached id: any cache entry keyed by `id` whose age
exceeds the TTL is removed there and its handle released, so afterwards a
query finds it absent.  A query alone does not sweep (see the counterexample:
`isCached` at T+6 minutes without an intervening preload still reports the
entry present). -/
theorem claim6_ttl_sweep (id id2 : String) (e : CachedSound) (src : MSource)
    (env : StepEnv) (s : MState)
    (hv : isSoundSourceValid src = true)
    (hmem : (id, e) ∈ s.cache)
    (hexp : ∀ p ∈ s.cache, p.1 = id → isExpired s.now p.2 = true)
    (hlt : e.h < s.nextH)
    (hmiss : lookupCache s.cache id2 = none) :
    lookupCache (preload id2 src env s).1.cache id = none ∧
    isCached (preload id2 src env s).1 id = false ∧
    (preload id2 src env s).1.handles e.h = .released := by
  have hid2 : id ≠ id2 := lookupCache_eq_none.mp hmiss (id, e) hmem
  have hrel1 : (cleanExpiredCache s).handles e.h = .released := by
    apply releaseAll_of_mem
    exact List.mem_map.mpr ⟨(id, e),
      List.mem_filter.mpr ⟨hmem, hexp (id, e) hmem rfl⟩, rfl⟩
  have hclean_keys : ∀ p ∈ (cleanExpiredCache s).cache, p.1 ≠ id := by
    intro p hp hpid
    obtain ⟨hp1, hp2⟩ := List.mem_filter.mp hp
    rw [hexp p hp1 hpid] at hp2
    cases hp2
  have hrel2 : (enforceCacheLimit (cleanExpiredCache s)).handles e.h = .released :=
    enforce_handles_released hrel1
  have henf_keys : ∀ p ∈ (enforceCacheLimit (cleanExpiredCache s)).cache, p.1 ≠ id :=
    fun p hp => hclean_keys p (enforce_mem hp)
  have hnext : e.h ≠ (enforceCacheLimit (cleanExpiredCache s)).nextH := by
    rw [enforce_nextH]
    exact Nat.ne_of_lt hlt
  have key : lookupCache (preload id2 src env s).1.cache id = none ∧
      (preload id2 src env s).1.handles e.h = .released := by
    cases hok : env.createOk with
    | true =>
      rw [preload_miss_ok hv hmiss hok]
      constructor
      · dsimp only
        apply lookupCache_eq_none.mpr
        intro p hp
        rcases List.mem_append.mp hp with hp' | hp'
        · exact henf_keys p hp'
        · simp at hp'
          rw [hp']
          exact fun hh => hid2 hh.symm
      · dsimp only
        rw [upd_of_ne _ _ _ hnext]
        exact hrel2
    | false =>
      rw [preload_miss_fail hv hmiss hok]
      exact ⟨lookupCache_eq_none.mpr henf_keys, hrel2⟩
  exact ⟨key.1, by simp [isCached, key.1], key.2⟩

/-- Witness for C6: the concrete expired trace, swept by preloading "b". -/
theorem claim6_ttl_sweep_witness :
    lookupCache (preload "b" (.asset 2) preOkEnv
      (runOps .zustand expiredTrace)).1.cache "a" = none ∧
    isCached (preload "b" (.asset 2) preOkEnv (runOps .zustand expiredTrace)).1 "a" =
      false ∧
    (preload "b" (.asset 2) preOkEnv (runOps .zustand expiredTrace)).1.handles 0 =
      .released :=
  claim6_ttl_sweep "a" "b" ⟨0, .asset 1, 0⟩ (.asset 2) preOkEnv
    (runOps .zustand expiredTrace) (by decide) (by decide) (by decide) (by decide)
    (by decide)

/-- Claim C6 counterexample: an entry preloaded at time 0 and queried via
`isCached` at time 360000 ms (6 minutes, TTL 5 minutes) is still reported
present — a query does not sweep, refuting "any subsequent query ... finds the
entry absent". -/
theorem claim6_counterexample :
    isCached (runOps .zustand expiredTrace) "a" = true ∧
    (runOps .zustand expiredTrace).now = 360000 ∧
    cacheExpireMs = 300000 := by
  decide

/-- Claim C7 (amended): resolution precedence.  A Sound with a local asset
resolves to it, streaming-off, consulting neither the cache, the storage
collaborator, nor the network; a Sound without a local asset whose storageUrl
is set (nonempty — required by the guard of the remote branch, which the
original claim omitted) and whose filename is already cached resolves to the
cached local URI, streaming-off, with no download started. -/
theorem claim7_resolve_precedence :
    (∀ (storage : Option (List (String × String))) (cached : List String)
        (dl : Bool) (snd : RSound) (a : Nat),
        snd.localAsset = some a →
        resolve storage cached dl snd =
          { result := some (.asset a, false)
            cacheAfter := cached
            storageConsulted := false
            cacheConsulted := false
            downloadStarted := false
            errorToUI := none }) ∧
    (∀ (storage : Option (List (String × String))) (cached : List String)
        (dl : Bool) (snd : RSound) (u f : String),
        snd.localAsset = none → snd.storageUrl = some u → u ≠ "" →
        snd.filename = some f → f ≠ "" → f ∈ cached →
        resolve storage cached dl snd =
          { result := some (.uri (cacheDirPath ++ f), false)
            cacheAfter := cached
            storageConsulted := false
            cacheConsulted := true
            downloadStarted := false
            errorToUI := none }) := by
  constructor
  · intro storage cached dl snd a hla
    simp [resolve, hla]
  · intro storage cached dl snd u f hla hsu hu hf hfne hmem
    simp [resolve, hla, hsu, hf, strTruthy, hu, hfne, hmem]

/-- Witness for C7: a Sound with both localAsset and storageUrl resolves to
the asset; a cached remote Sound resolves to the cached URI. -/
theorem claim7_resolve_precedence_witness :
    resolve (some []) ["f.mp3"] true localSound =
      { result := some (.asset 7, false)
        cacheAfter := ["f.mp3"]
        storageConsulted := false
        cacheConsulted := false
        downloadStarted := false
        errorToUI := none } ∧
    resolve (some []) ["f.mp3"] true cachedSound =
      { result := some (.uri (cacheDirPath ++ "f.mp3"), false)
        cacheAfter := ["f.mp3"]
        storageConsulted := false
        cacheConsulted := true
        downloadStarted := false
        errorToUI := none } :=
  ⟨claim7_resolve_precedence.1 (some []) ["f.mp3"] true localSound 7 rfl,
   claim7_resolve_precedence.2 (some []) ["f.mp3"] true cachedSound
     "sounds/f.mp3" "f.mp3" rfl rfl (by decide) rfl (by decide) (by decide)⟩

/-- Claim C7 counterexample: a Sound whose filename is cached but whose
storageUrl is absent resolves to null, not to the cached URI — the remote
branch requires both storageUrl and filename to be truthy. -/
theorem claim7_counterexample :
    (resolve none ["f.mp3"] true ⟨"s", "n", some "f.mp3", none, none⟩).result =
      none ∧
    (resolve none ["f.mp3"] true ⟨"s", "n", some "f.mp3", none, none⟩).result ≠
      some (.uri (cacheDirPath ++ "f.mp3"), false) := by
  decide

/-- Claim C8 (amended): after unload(), getCurrentId() is none and the session
handle is cleared; with the createStore-variant reset the UIState equals its
initial values; with the zustand-variant reset every field except volume and
rate is restored (volume and rate keep their prior values); and when nothing
is loaded, unload only clears currentId and resets the store. -/
theorem claim8_unload_reset (v : StoreVariant) (s : MState) :
    getCurrentId (unload v s) = none ∧
    (unload v s).sound = none ∧
    (v = .createStore → (unload v s).store = initialSoundState) ∧
    (v = .zustand → (unload v s).store =
      { initialSoundState with volume := s.store.volume, rate := s.store.rate }) ∧
    (s.sound = none →
      unload v s = { s with currentId := none, store := resetStore v s.store }) := by
  refine ⟨unload_currentId_none v s, unload_sound_none v s, ?_, ?_, ?_⟩
  · intro hv
    subst hv
    rw [unload_store]
    rfl
  · intro hv
    subst hv
    rw [unload_store]
    rfl
  · intro h0
    exact unload_eq_none h0

/-- Witness for C8 on a loaded state, for both store variants. -/
theorem claim8_unload_reset_witness :
    getCurrentId (unload .createStore demoPlaying) = none ∧
    (unload .createStore demoPlaying).store = initialSoundState ∧
    (unload .zustand demoPlaying).store =
      { initialSoundState with
        volume := demoPlaying.store.volume
        rate := demoPlaying.store.rate } :=
  ⟨(claim8_unload_reset .createStore demoPlaying).1,
   (claim8_unload_reset .createStore demoPlaying).2.2.1 rfl,
   (claim8_unload_reset .zustand demoPlaying).2.2.2.1 rfl⟩

/-- Claim C8 counterexample: under the zustand store variant, play "a", set
the volume to 0, then unload: getCurrentId is none but the UIState does not
equal its initial values — volume remains 0 instead of returning to 1.0. -/
theorem claim8_counterexample :
    getCurrentId volumeThenUnload = none ∧
    volumeThenUnload.store.volume = 0 ∧
    initialSoundState.volume = 1 ∧
    volumeThenUnload.store ≠ initialSoundState := by
  decide

/-- Claim C9: a failing background download started by resolve is absorbed —
resolve pushes no error towards the UI whether the download succeeds or
fails, returns the same value either way, and a play request built on the
resolution is completely unaffected by the download's failure. -/
theorem claim9_background_isolated (v : StoreVariant)
    (storage : Option (List (String × String))) (cached : List String)
    (snd : RSound) (id : String) (env : StepEnv) (s : MState) :
    (resolve storage cached true snd).errorToUI = none ∧
    (resolve storage cached false snd).errorToUI = none ∧
    (resolve storage cached true snd).result = (resolve storage cached false snd).result ∧
    resolveAndPlay v storage cached true id env snd s =
      resolveAndPlay v storage cached false id env snd s := by
  obtain ⟨hres, he1, he0⟩ := resolve_download_flag storage cached snd
  refine ⟨he1, he0, hres, ?_⟩
  unfold resolveAndPlay
  rw [hres]

/-- Claim C10: when the playback status callback receives a loaded status with
didJustFinish and not looping, it writes isPlaying=false and snaps the
position to the (JS-defaulted) duration; with isLooping set, didJustFinish
does not force isPlaying to false — isPlaying mirrors the status. -/
theorem claim10_finish_snap (st : AVStatus) (store : SoundState)
    (hl : st.isLoaded = true) (hf : st.didJustFinish = true) :
    (st.isLooping = false →
      (onPlaybackStatusUpdate st store).isPlaying = false ∧
      (onPlaybackStatusUpdate st store).positionMillis =
        (onPlaybackStatusUpdate st store).durationMillis ∧
      (onPlaybackStatusUpdate st store).durationMillis = jsOr0 st.durationMillis) ∧
    (st.isLooping = true →
      (onPlaybackStatusUpdate st store).isPlaying = st.isPlaying) := by
  constructor
  · intro hlp
    simp [onPlaybackStatusUpdate, hl, hf, hlp]
  · intro hlp
    simp [onPlaybackStatusUpdate, hl, hf, hlp]

/-- Witness for C10 on concrete finish statuses. -/
theorem claim10_finish_snap_witness :
    ((onPlaybackStatusUpdate finStatus initialSoundState).isPlaying = false ∧
     (onPlaybackStatusUpdate finStatus initialSoundState).positionMillis =
       (onPlaybackStatusUpdate finStatus initialSoundState).durationMillis ∧
     (onPlaybackStatusUpdate finStatus initialSoundState).durationMillis =
       jsOr0 finStatus.durationMillis) ∧
    (onPlaybackStatusUpdate loopStatus initialSoundState).isPlaying =
      loopStatus.isPlaying :=
  ⟨(claim10_finish_snap finStatus initialSoundState rfl rfl).1 rfl,
   (claim10_finish_snap loopStatus initialSoundState rfl rfl).2 rfl⟩

end SoundRepo
